import Mathlib

/-!
Verification development for the Sui flash-loan dapp.

Part 1 is a shallow embedding of the Move module
`sui_flash_loan::flash_loan` (src/contracts/sources/flash_loan.move):
u64 values are modelled as `Nat` together with explicit abort-on-overflow
checks (Move arithmetic aborts, it does not wrap), `Coin<SUI>` and
`Balance<SUI>` are modelled by their u64 value, aborts are modelled by
`Except MoveAbort`, and the `vector<LoanReceipt>` by a `List`.

Part 2 models the backend orchestration services
(src/backend/src/services/suiService.ts, middleware/rateLimiter.ts and the
flash-loan route module): the retry/failover executor, the gas estimator
(JavaScript numbers modelled as exact integers and rationals), and the
admission-gate middleware chains.

Definitions come first, then the helper lemmas and the theorems about the
specified properties.
-/

namespace FlashLoan

/-! ### The Move module: data model and operations -/

def U64_LIMIT : Nat := 2 ^ 64

inductive MoveAbort where
  | code (n : Nat)
  | overflow
deriving Repr, DecidableEq

def checkedAdd (a b : Nat) : Except MoveAbort Nat :=
  if a + b < U64_LIMIT then .ok (a + b) else .error .overflow

def checkedMul (a b : Nat) : Except MoveAbort Nat :=
  if a * b < U64_LIMIT then .ok (a * b) else .error .overflow

/-- Move `assert!(cond, err)`. -/
def massert (cond : Prop) [Decidable cond] (err : Nat) : Except MoveAbort Unit :=
  if cond then .ok () else .error (.code err)

def E_POOL_PAUSED : Nat := 1

def E_INSUFFICIENT_BALANCE : Nat := 2

def E_INVALID_AMOUNT : Nat := 3

def E_UNAUTHORIZED : Nat := 4

def E_LOAN_NOT_FOUND : Nat := 5

def E_LOAN_ALREADY_REPAID : Nat := 6

def E_INSUFFICIENT_REPAYMENT : Nat := 7

def E_FEE_RATE_TOO_HIGH : Nat := 8

/-- Transaction context: the fields of `TxContext` the module reads. -/
structure TxContext where
  sender : Nat
  epoch : Nat
deriving Repr, DecidableEq

/-- Loan receipt for tracking active loans. -/
structure LoanReceipt where
  loan_id : Nat
  borrower : Nat
  amount_borrowed : Nat
  fee_amount : Nat
  timestamp : Nat
  is_repaid : Bool
deriving Repr, DecidableEq

/-- Flash loan capability for authorized callbacks.  As in the source, the
`pool_id` field is set from the transaction sender and is never read by
`repay_flash_loan`. -/
structure FlashLoanCapability where
  pool_id : Nat
  loan_id : Nat
deriving Repr, DecidableEq

/-- Flash loan pool (the `UID` is dropped; the coin balance is its value). -/
structure FlashLoanPool where
  owner : Nat
  balance : Nat
  fee_rate : Nat
  is_paused : Bool
  total_loans_issued : Nat
  total_fees_collected : Nat
  pool_version : Nat
  created_at : Nat
  max_loan_amount : Nat
  active_loans : List LoanReceipt
deriving Repr, DecidableEq

/-- `create_pool`: validates the fee rate and builds the initial pool. -/
def create_pool (owner : Nat) (initial_deposit : Nat) (fee_rate : Nat)
    (max_loan_amount : Nat) (ctx : TxContext) : Except MoveAbort FlashLoanPool := do
  massert (fee_rate ≤ 500) E_FEE_RATE_TOO_HIGH
  return {
    owner,
    balance := initial_deposit,
    fee_rate,
    is_paused := false,
    total_loans_issued := 0,
    total_fees_collected := 0,
    pool_version := 1,
    created_at := ctx.epoch,
    max_loan_amount,
    active_loans := [] }

/-- `request_flash_loan`: validates pool state, computes the fee, debits the
balance, records the receipt and mints the capability.  Returns the value of
the loan coin, the capability and the updated pool. -/
def request_flash_loan (pool : FlashLoanPool) (amount : Nat) (ctx : TxContext) :
    Except MoveAbort (Nat × FlashLoanCapability × FlashLoanPool) := do
  massert (pool.is_paused = false) E_POOL_PAUSED
  massert (amount > 0) E_INVALID_AMOUNT
  massert (amount ≤ pool.max_loan_amount) E_INVALID_AMOUNT
  massert (pool.balance ≥ amount) E_INSUFFICIENT_BALANCE
  let fee_amount := (← checkedMul amount pool.fee_rate) / 10000
  let _total_repayment ← checkedAdd amount fee_amount
  let loan_id := pool.total_loans_issued
  let receipt : LoanReceipt :=
    { loan_id, borrower := ctx.sender, amount_borrowed := amount,
      fee_amount, timestamp := ctx.epoch, is_repaid := false }
  let capability : FlashLoanCapability := { pool_id := ctx.sender, loan_id }
  let loan_coin := amount
  let issued ← checkedAdd pool.total_loans_issued 1
  let pool1 : FlashLoanPool :=
    { pool with
      balance := pool.balance - amount,
      total_loans_issued := issued,
      active_loans := pool.active_loans ++ [receipt] }
  return (loan_coin, capability, pool1)

/-- Helper function to find and remove a loan receipt: scans the list in
order, removes the first receipt with the given id (preserving the order of
the rest, as `vector::remove` does) and aborts with `E_LOAN_NOT_FOUND` when
no receipt matches. -/
def find_and_remove_loan_receipt :
    List LoanReceipt → Nat → Except MoveAbort (LoanReceipt × List LoanReceipt)
  | [], _ => .error (.code E_LOAN_NOT_FOUND)
  | r :: rest, loan_id =>
    if r.loan_id = loan_id then
      .ok (r, rest)
    else do
      let (found, remaining) ← find_and_remove_loan_receipt rest loan_id
      return (found, r :: remaining)

/-- `repay_flash_loan`: looks the receipt up by the loan id of the
capability (the `pool_id` of the capability is never consulted), checks the
repaid flag and the repayment amount, credits the whole repayment coin to
the pool balance, accumulates the fee, and pushes the receipt back marked
repaid.  The capability is consumed. -/
def repay_flash_loan (pool : FlashLoanPool) (capability : FlashLoanCapability)
    (repayment : Nat) (ctx : TxContext) : Except MoveAbort FlashLoanPool := do
  let loan_id := capability.loan_id
  let (receipt, remaining) ← find_and_remove_loan_receipt pool.active_loans loan_id
  massert (receipt.is_repaid = false) E_LOAN_ALREADY_REPAID
  let repayment_amount := repayment
  let required_repayment ← checkedAdd receipt.amount_borrowed receipt.fee_amount
  massert (repayment_amount ≥ required_repayment) E_INSUFFICIENT_REPAYMENT
  let balance1 ← checkedAdd pool.balance repayment
  let fees1 ← checkedAdd pool.total_fees_collected receipt.fee_amount
  let updated_receipt : LoanReceipt := { receipt with is_repaid := true }
  let _ := ctx
  return { pool with
    balance := balance1,
    total_fees_collected := fees1,
    active_loans := remaining ++ [updated_receipt] }

/-- `get_active_loans_count`: length of the `active_loans` vector. -/
def get_active_loans_count (pool : FlashLoanPool) : Nat :=
  pool.active_loans.length

/-- `has_sufficient_liquidity`. -/
def has_sufficient_liquidity (pool : FlashLoanPool) (amount : Nat) : Bool :=
  pool.balance ≥ amount

/-- `calculate_flash_loan_cost`: `(fee, total)` with Move u64 semantics. -/
def calculate_flash_loan_cost (pool : FlashLoanPool) (amount : Nat) :
    Except MoveAbort (Nat × Nat) := do
  let fee_amount := (← checkedMul amount pool.fee_rate) / 10000
  let total_repayment ← checkedAdd amount fee_amount
  return (fee_amount, total_repayment)

def exceptIsOk {α : Type} (e : Except MoveAbort α) : Bool :=
  match e with
  | .ok _ => true
  | .error _ => false

instance exceptDecidableEq {ε α : Type} [DecidableEq ε] [DecidableEq α] :
    DecidableEq (Except ε α) := fun a b =>
  match a, b with
  | .ok x, .ok y => if h : x = y then .isTrue (by simp [h]) else .isFalse (by simp [h])
  | .error x, .error y => if h : x = y then .isTrue (by simp [h]) else .isFalse (by simp [h])
  | .ok _, .error _ => .isFalse (by simp)
  | .error _, .ok _ => .isFalse (by simp)

def ctx0 : TxContext := { sender := 10, epoch := 0 }

/-- End-to-end scenario of the spec: pool with balance 1,000,000,000, fee
rate 50 bp, max loan 500,000,000; borrow 100,000,000; repay exactly
100,500,000; report the active-loans count afterwards. -/
def end_to_end_count : Except MoveAbort Nat := do
  let pool ← create_pool 10 1000000000 50 500000000 ctx0
  let (_loan_coin, capability, pool1) ← request_flash_loan pool 100000000 ctx0
  let pool2 ← repay_flash_loan pool1 capability 100500000 ctx0
  return get_active_loans_count pool2

/-- Same scenario, reporting the final pool state. -/
def end_to_end_pool : Except MoveAbort FlashLoanPool := do
  let pool ← create_pool 10 1000000000 50 500000000 ctx0
  let (_loan_coin, capability, pool1) ← request_flash_loan pool 100000000 ctx0
  repay_flash_loan pool1 capability 100500000 ctx0

/-- Cross-pool scenario: two pools, each with one outstanding loan of
loan id 0; the loan of pool A is repaid using the capability minted by the
request on pool B. -/
def cross_pool_repay : Except MoveAbort FlashLoanPool := do
  let ctxA : TxContext := { sender := 1, epoch := 0 }
  let ctxB : TxContext := { sender := 2, epoch := 0 }
  let poolA ← create_pool 1 1000000000 50 500000000 ctxA
  let poolB ← create_pool 2 1000000000 50 500000000 ctxB
  let (_cA, _capA, poolA1) ← request_flash_loan poolA 100000000 ctxA
  let (_cB, capB, _poolB1) ← request_flash_loan poolB 100000000 ctxB
  repay_flash_loan poolA1 capB 100500000 ctxA

def poolW : FlashLoanPool :=
  { owner := 1, balance := 1000, fee_rate := 50, is_paused := false,
    total_loans_issued := 1, total_fees_collected := 0, pool_version := 1,
    created_at := 0, max_loan_amount := 500,
    active_loans := [{
      loan_id := 0, borrower := 2, amount_borrowed := 100,
      fee_amount := 5, timestamp := 0, is_repaid := false }] }

def capW : FlashLoanCapability := { pool_id := 1, loan_id := 0 }

def poolW2 : FlashLoanPool :=
  { poolW with
    balance := 1200, total_fees_collected := 5,
    active_loans := [{
      loan_id := 0, borrower := 2, amount_borrowed := 100,
      fee_amount := 5, timestamp := 0, is_repaid := true }] }

def pool_ca : FlashLoanPool :=
  { owner := 1, balance := 10, fee_rate := 50, is_paused := false,
    total_loans_issued := 0, total_fees_collected := 0, pool_version := 1,
    created_at := 0, max_loan_amount := 5, active_loans := [] }

def pool_paused : FlashLoanPool := { pool_ca with is_paused := true }

def pool_low : FlashLoanPool :=
  { pool_ca with balance := 3, max_loan_amount := 100 }

def pool_hi_fee : FlashLoanPool := { pool_ca with fee_rate := 500 }

def pool0 : FlashLoanPool :=
  { owner := 10, balance := 1000000000, fee_rate := 50, is_paused := false,
    total_loans_issued := 0, total_fees_collected := 0, pool_version := 1,
    created_at := 0, max_loan_amount := 500000000, active_loans := [] }

end FlashLoan

namespace Backend

/-! ### The backend services -/

/-- A JavaScript error as observed by `executeWithFailover`: its `code`
field and the three `message.includes(...)` predicates the code tests. -/
structure JsError where
  code : String
  msgConnRefused : Bool
  msgTimeout : Bool
  msgFetchFailed : Bool
deriving Repr, DecidableEq

/-- The network-error classification inside `executeWithFailover`. -/
def isNetworkError (e : JsError) : Bool :=
  (e.code == "NETWORK_ERROR") || e.msgConnRefused || e.msgTimeout || e.msgFetchFailed

/-- Retry configuration: `maxAttempts` from `RETRY_CONFIG`, plus the length
of the `RPC_CONFIG.endpoints` list consulted by the failover branch.  The
delay parameters only affect how long a backoff sleeps, not whether it
happens, so the model counts sleeps instead of timing them. -/
structure RetryConfig where
  maxAttempts : Nat
  endpointsLength : Nat
deriving Repr, DecidableEq

/-- Observable outcome of one `executeWithFailover` run: final result,
number of attempts performed, number of backoff sleeps, number of endpoint
rotations. -/
structure FailoverRun (α : Type) where
  result : Except JsError α
  attempts : Nat
  sleeps : Nat
  rotations : Nat
deriving Repr

/-- The `for attempt in 1..maxAttempts` loop, with `fuel` counting the
remaining iterations.  `op n` is the outcome of the n-th attempt. -/
def executeWithFailoverGo {α : Type} (op : Nat → Except JsError α)
    (cfg : RetryConfig) :
    Nat → Nat → Nat → Nat → Option JsError → FailoverRun α
  | 0, attempt, sleeps, rotations, lastErr =>
    ⟨.error (lastErr.getD ⟨"", false, false, false⟩), attempt - 1, sleeps, rotations⟩
  | fuel + 1, attempt, sleeps, rotations, _lastErr =>
    match op attempt with
    | .ok v => ⟨.ok v, attempt, sleeps, rotations⟩
    | .error e =>
      if isNetworkError e = true ∧ attempt < cfg.endpointsLength then
        executeWithFailoverGo op cfg fuel (attempt + 1) sleeps (rotations + 1) (some e)
      else if e.code = "VALIDATION_ERROR" ∨ cfg.maxAttempts ≤ attempt then
        ⟨.error e, attempt, sleeps, rotations⟩
      else
        executeWithFailoverGo op cfg fuel (attempt + 1) (sleeps + 1) rotations (some e)

/-- `executeWithFailover`. -/
def executeWithFailover {α : Type} (op : Nat → Except JsError α)
    (cfg : RetryConfig) : FailoverRun α :=
  executeWithFailoverGo op cfg cfg.maxAttempts 1 0 0 none

def domainError : JsError :=
  { code := "DOMAIN_ERROR", msgConnRefused := false, msgTimeout := false,
    msgFetchFailed := false }

def validationError : JsError :=
  { code := "VALIDATION_ERROR", msgConnRefused := false, msgTimeout := false,
    msgFetchFailed := false }

/-- The default configuration: 3 attempts, 3 endpoints. -/
def retryCfg3 : RetryConfig := { maxAttempts := 3, endpointsLength := 3 }

/-- A run in which the ledger reports the same domain error at every
attempt. -/
def domainRun : FailoverRun Unit :=
  executeWithFailover (fun _ => .error domainError) retryCfg3

/-- The three throttles of the admission gate. -/
inductive Limiter where
  | globalScope
  | flashLoanScope
  | walletScope
deriving Repr, DecidableEq

/-- `rateLimitMiddleware = [globalRateLimiter]`. -/
def rateLimitMiddleware : List Limiter := [.globalScope]

/-- `flashLoanRateLimitMiddleware = [globalRateLimiter, flashLoanRateLimiter,
walletRateLimiter]`. -/
def flashLoanRateLimitMiddleware : List Limiter :=
  [.globalScope, .flashLoanScope, .walletScope]

/-- Middleware guarding the estimate route: the app-level
`app.use(rateLimitMiddleware)` only; the route itself mounts no limiter. -/
def estimateGuardChain : List Limiter := rateLimitMiddleware ++ []

/-- Middleware guarding the execute route: the app-level chain followed by
the route-level `flashLoanRateLimitMiddleware`. -/
def executeGuardChain : List Limiter :=
  rateLimitMiddleware ++ flashLoanRateLimitMiddleware

/-- A chain admits a request iff every limiter on it admits the request
(`env` says which limiters would admit this particular request). -/
def chainAdmits (env : Limiter → Bool) (chain : List Limiter) : Bool :=
  chain.all env

/-- A request reaches the gas-estimation handler iff the estimate guard
chain admits it. -/
def reachesCostEstimator (env : Limiter → Bool) : Bool :=
  chainAdmits env estimateGuardChain

/-- A request reaches the executing handler iff the execute guard chain
admits it. -/
def reachesExecution (env : Limiter → Bool) : Bool :=
  chainAdmits env executeGuardChain

/-- A request that the identity-scoped (wallet) throttle would reject. -/
def envRejectWallet : Limiter → Bool := fun l =>
  match l with
  | .walletScope => false
  | _ => true

structure GasUsed where
  computationCost : Int
  storageCost : Int
  storageRebate : Int
deriving Repr, DecidableEq

structure DryRunResult where
  statusSuccess : Bool
  gasUsed : GasUsed
deriving Repr, DecidableEq

structure GasEstimate where
  gasEstimate : Int
  isValid : Bool
  breakdown : GasUsed
  errMsg : Option String
deriving Repr, DecidableEq

/-- `estimateGasCost`, as a function of the simulation outcome and the
configured `MAX_GAS_BUDGET` ceiling. -/
def estimateGasCost (dry : DryRunResult) (maxGasBudget : Int) : GasEstimate :=
  if dry.statusSuccess = false then
    { gasEstimate := 0, isValid := false,
      breakdown := { computationCost := 0, storageCost := 0, storageRebate := 0 },
      errMsg := some ("Transaction would fail during execution") }
  else
    let computationCost := dry.gasUsed.computationCost
    let storageCost := dry.gasUsed.storageCost
    let storageRebate := dry.gasUsed.storageRebate
    let totalGas := computationCost + storageCost - storageRebate
    let gasWithBuffer := ⌈(totalGas : ℚ) * 1.2⌉
    let isValid : Bool := decide (gasWithBuffer ≤ maxGasBudget)
    { gasEstimate := gasWithBuffer, isValid := isValid,
      breakdown := { computationCost, storageCost, storageRebate },
      errMsg := if isValid then none else some ("Gas cost exceeds maximum allowed") }

def dryOk : DryRunResult :=
  { statusSuccess := true,
    gasUsed := { computationCost := 100, storageCost := 50, storageRebate := 30 } }

/-- JavaScript truthiness of an optional string field (absent and empty
strings are falsy). -/
def jsTruthy : Option String → Bool
  | none => false
  | some s => s != ""

/-- JavaScript `a || b`. -/
def jsOr (a b : Option String) : Option String :=
  if jsTruthy a then a else b

/-- Observable outcome of one `walletRateLimiter` invocation: whether
`next()` was called, and whether a successful counter increment was
recorded for the request. -/
structure WalletLimitResult where
  admitted : Bool
  counted : Bool
deriving Repr, DecidableEq

/-- `walletRateLimiter`: the wallet key is `body.borrowerAddress ||
body.walletAddress`; with no key it calls `next()` without touching the
store; `incr` is the outcome of `redisClient.incr` (the surrounding
try/catch turns a store failure into `next()`); a count above 5 is
rejected with HTTP 429. -/
def walletRateLimiter (borrowerAddress walletAddress : Option String)
    (incr : Except Unit Nat) : WalletLimitResult :=
  let walletAddr := jsOr borrowerAddress walletAddress
  if jsTruthy walletAddr = false then
    { admitted := true, counted := false }
  else
    match incr with
    | .error _ => { admitted := true, counted := false }
    | .ok count =>
      if count > 5 then { admitted := false, counted := true }
      else { admitted := true, counted := true }

end Backend

namespace FlashLoan

/-! ### Lemmas and theorems about the Move module -/

theorem find_and_remove_ok (l : List LoanReceipt) (i : Nat) (r : LoanReceipt)
    (rest : List LoanReceipt)
    (h : find_and_remove_loan_receipt l i = .ok (r, rest)) :
    r.loan_id = i ∧ rest.length + 1 = l.length := by
  induction l generalizing rest with
  | nil => simp [find_and_remove_loan_receipt] at h
  | cons a l ih =>
    rw [find_and_remove_loan_receipt] at h
    by_cases ha : a.loan_id = i
    · simp [ha] at h
      obtain ⟨rfl, rfl⟩ := h
      exact ⟨ha, by simp⟩
    · simp [ha] at h
      cases hrec : find_and_remove_loan_receipt l i with
      | error e => simp [hrec, Bind.bind, Except.bind] at h
      | ok p =>
        obtain ⟨f, rem⟩ := p
        simp [hrec, Bind.bind, Except.bind, Pure.pure, Except.pure] at h
        obtain ⟨rfl, rfl⟩ := h
        obtain ⟨h1, h2⟩ := ih _ hrec
        constructor
        · exact h1
        · simp
          omega

theorem find_and_remove_append_fresh (l : List LoanReceipt) (receipt : LoanReceipt)
    (h : ∀ rc ∈ l, rc.loan_id ≠ receipt.loan_id) :
    find_and_remove_loan_receipt (l ++ [receipt]) receipt.loan_id = .ok (receipt, l) := by
  induction l with
  | nil => simp [find_and_remove_loan_receipt]
  | cons a l ih =>
    have ha : a.loan_id ≠ receipt.loan_id := h a (by simp)
    rw [List.cons_append, find_and_remove_loan_receipt]
    simp [ha, ih (fun rc hrc => h rc (by simp [hrc])), Bind.bind, Except.bind,
      Pure.pure, Except.pure]

theorem request_ok (pool : FlashLoanPool) (amount : Nat) (ctx : TxContext)
    (hp : pool.is_paused = false) (h0 : 0 < amount)
    (hmax : amount ≤ pool.max_loan_amount) (hbal : amount ≤ pool.balance)
    (hm : amount * pool.fee_rate < U64_LIMIT)
    (ht : amount + amount * pool.fee_rate / 10000 < U64_LIMIT)
    (hc : pool.total_loans_issued + 1 < U64_LIMIT) :
    request_flash_loan pool amount ctx = .ok (amount,
      { pool_id := ctx.sender, loan_id := pool.total_loans_issued },
      { pool with
        balance := pool.balance - amount,
        total_loans_issued := pool.total_loans_issued + 1,
        active_loans := pool.active_loans ++ [{
          loan_id := pool.total_loans_issued,
          borrower := ctx.sender,
          amount_borrowed := amount,
          fee_amount := amount * pool.fee_rate / 10000,
          timestamp := ctx.epoch,
          is_repaid := false }] }) := by
  unfold request_flash_loan massert checkedMul checkedAdd
  simp [hp, h0, hmax, hbal, hm, ht, hc, Bind.bind, Except.bind, Pure.pure, Except.pure]

theorem request_ok_elim (pool : FlashLoanPool) (amount : Nat) (ctx : TxContext)
    (c : Nat) (cap : FlashLoanCapability) (p1 : FlashLoanPool)
    (h : request_flash_loan pool amount ctx = .ok (c, cap, p1)) :
    pool.is_paused = false ∧ 0 < amount ∧ amount ≤ pool.max_loan_amount ∧
    amount ≤ pool.balance ∧ c = amount ∧
    cap = { pool_id := ctx.sender, loan_id := pool.total_loans_issued } ∧
    p1 = { pool with
      balance := pool.balance - amount,
      total_loans_issued := pool.total_loans_issued + 1,
      active_loans := pool.active_loans ++ [{
        loan_id := pool.total_loans_issued,
        borrower := ctx.sender,
        amount_borrowed := amount,
        fee_amount := amount * pool.fee_rate / 10000,
        timestamp := ctx.epoch,
        is_repaid := false }] } := by
  by_cases hp : pool.is_paused = false
  · by_cases h0 : 0 < amount
    · by_cases hmax : amount ≤ pool.max_loan_amount
      · by_cases hbal : pool.balance ≥ amount
        · by_cases hm : amount * pool.fee_rate < U64_LIMIT
          · by_cases ht : amount + amount * pool.fee_rate / 10000 < U64_LIMIT
            · by_cases hc : pool.total_loans_issued + 1 < U64_LIMIT
              · unfold request_flash_loan at h
                simp [massert, checkedMul, checkedAdd, hp, h0, hmax, hbal, hm, ht, hc,
                  Bind.bind, Except.bind, Pure.pure, Except.pure] at h
                obtain ⟨rfl, rfl, rfl⟩ := h
                refine ⟨hp, h0, hmax, hbal, rfl, rfl, ?_⟩
                simp [hp]
              · unfold request_flash_loan at h
                simp [massert, checkedMul, checkedAdd, hp, h0, hmax, hbal, hm, ht, hc,
                  Bind.bind, Except.bind, Pure.pure, Except.pure] at h
            · unfold request_flash_loan at h
              simp [massert, checkedMul, checkedAdd, hp, h0, hmax, hbal, hm, ht,
                Bind.bind, Except.bind, Pure.pure, Except.pure] at h
          · unfold request_flash_loan at h
            simp [massert, checkedMul, checkedAdd, hp, h0, hmax, hbal, hm,
              Bind.bind, Except.bind, Pure.pure, Except.pure] at h
        · unfold request_flash_loan at h
          simp [massert, hp, h0, hmax, hbal, Bind.bind, Except.bind] at h
      · unfold request_flash_loan at h
        simp [massert, hp, h0, hmax, Bind.bind, Except.bind] at h
    · unfold request_flash_loan at h
      simp [massert, hp, h0, Bind.bind, Except.bind] at h
  · unfold request_flash_loan at h
    simp [massert, hp, Bind.bind, Except.bind] at h

theorem repay_ok (pool : FlashLoanPool) (capability : FlashLoanCapability)
    (repayment : Nat) (ctx : TxContext) (receipt : LoanReceipt)
    (remaining : List LoanReceipt)
    (hfr : find_and_remove_loan_receipt pool.active_loans capability.loan_id
      = .ok (receipt, remaining))
    (hrep : receipt.is_repaid = false)
    (hreq : receipt.amount_borrowed + receipt.fee_amount < U64_LIMIT)
    (hge : receipt.amount_borrowed + receipt.fee_amount ≤ repayment)
    (hb : pool.balance + repayment < U64_LIMIT)
    (hf : pool.total_fees_collected + receipt.fee_amount < U64_LIMIT) :
    repay_flash_loan pool capability repayment ctx = .ok { pool with
      balance := pool.balance + repayment,
      total_fees_collected := pool.total_fees_collected + receipt.fee_amount,
      active_loans := remaining ++ [{ receipt with is_repaid := true }] } := by
  unfold repay_flash_loan
  simp [hfr, massert, checkedAdd, hrep, hreq, hge, hb, hf,
    Bind.bind, Except.bind, Pure.pure, Except.pure]

theorem repay_ok_elim (pool : FlashLoanPool) (capability : FlashLoanCapability)
    (repayment : Nat) (ctx : TxContext) (p2 : FlashLoanPool)
    (h : repay_flash_loan pool capability repayment ctx = .ok p2) :
    ∃ receipt remaining,
      find_and_remove_loan_receipt pool.active_loans capability.loan_id
        = .ok (receipt, remaining) ∧
      receipt.is_repaid = false ∧
      receipt.amount_borrowed + receipt.fee_amount ≤ repayment ∧
      p2 = { pool with
        balance := pool.balance + repayment,
        total_fees_collected := pool.total_fees_collected + receipt.fee_amount,
        active_loans := remaining ++ [{ receipt with is_repaid := true }] } := by
  unfold repay_flash_loan at h
  cases hfr : find_and_remove_loan_receipt pool.active_loans capability.loan_id with
  | error e => simp [hfr, Bind.bind, Except.bind] at h
  | ok p =>
    obtain ⟨receipt, remaining⟩ := p
    refine ⟨receipt, remaining, rfl, ?_⟩
    by_cases hrep : receipt.is_repaid = false
    · by_cases hreq : receipt.amount_borrowed + receipt.fee_amount < U64_LIMIT
      · by_cases hge : receipt.amount_borrowed + receipt.fee_amount ≤ repayment
        · by_cases hb1 : pool.balance + repayment < U64_LIMIT
          · by_cases hf1 : pool.total_fees_collected + receipt.fee_amount < U64_LIMIT
            · simp [hfr, massert, checkedAdd, hrep, hreq, hge, hb1, hf1,
                Bind.bind, Except.bind, Pure.pure, Except.pure] at h
              exact ⟨hrep, hge, h.symm⟩
            · simp [hfr, massert, checkedAdd, hrep, hreq, hge, hb1, hf1,
                Bind.bind, Except.bind, Pure.pure, Except.pure] at h
          · simp [hfr, massert, checkedAdd, hrep, hreq, hge, hb1,
              Bind.bind, Except.bind, Pure.pure, Except.pure] at h
        · simp [hfr, massert, checkedAdd, hrep, hreq, hge,
            Bind.bind, Except.bind, Pure.pure, Except.pure] at h
      · simp [hfr, massert, checkedAdd, hrep, hreq,
          Bind.bind, Except.bind, Pure.pure, Except.pure] at h
    · simp [hfr, massert, hrep, Bind.bind, Except.bind] at h

/-- C1 counterexample: in the end-to-end scenario of the spec (create pool
with balance 1,000,000,000 and fee rate 50 bp, borrow 100,000,000, repay
exactly 100,500,000) the outstanding-loan count reported by
`get_active_loans_count` afterwards is 1, not 0: the repaid receipt is
pushed back into the vector. -/
theorem end_to_end_active_loans_count_not_zero :
    end_to_end_count = .ok 1 ∧ end_to_end_count ≠ .ok 0 := by decide

/-- C1 amended: a successful `repay_flash_loan` removes the receipt and pushes
it back marked repaid, so the count reported by `get_active_loans_count`
is unchanged, and a receipt for the loan id with `is_repaid = true`
remains in the vector. -/
theorem repay_flash_loan_preserves_receipt_count
    (pool : FlashLoanPool) (capability : FlashLoanCapability)
    (repayment : Nat) (ctx : TxContext) (p2 : FlashLoanPool)
    (h : repay_flash_loan pool capability repayment ctx = .ok p2) :
    get_active_loans_count p2 = get_active_loans_count pool ∧
    ∃ rc ∈ p2.active_loans, rc.loan_id = capability.loan_id ∧ rc.is_repaid = true := by
  obtain ⟨receipt, remaining, hfr, hrep, hge, rfl⟩ :=
    repay_ok_elim _ _ _ _ _ h
  obtain ⟨hid, hlen⟩ := find_and_remove_ok _ _ _ _ hfr
  constructor
  · simp only [get_active_loans_count, List.length_append, List.length_cons,
      List.length_nil]
    omega
  · exact ⟨{ receipt with is_repaid := true }, by simp, by simpa using hid, rfl⟩

/-- C1 witness: the amended claim evaluated on a concrete pool with one
outstanding receipt. -/
theorem repay_flash_loan_preserves_receipt_count_witness :
    get_active_loans_count poolW2 = get_active_loans_count poolW ∧
    ∃ rc ∈ poolW2.active_loans, rc.loan_id = capW.loan_id ∧ rc.is_repaid = true :=
  repay_flash_loan_preserves_receipt_count poolW capW 200 ctx0 poolW2 (by decide)

/-- C2 failing input: `repay_flash_loan` never consults `capability.pool_id`,
so repaying pool A with the capability minted by a request on pool B
succeeds whenever the loan ids collide (both pools mint loan id 0 here),
contradicting the claimed capability-to-pool binding. -/
theorem cross_pool_capability_repay_succeeds :
    exceptIsOk cross_pool_repay = true := by decide

/-- C5 counterexample: on a pool with fee rate 500 (within the allowed
ceiling) and amount 2^60, the u64 product amount * fee_rate overflows, so
`calculate_flash_loan_cost` aborts instead of returning the floor-formula
pair. -/
theorem calculate_cost_aborts_on_overflow :
    pool_hi_fee.fee_rate ≤ 500 ∧
    calculate_flash_loan_cost pool_hi_fee (2 ^ 60) = .error .overflow ∧
    calculate_flash_loan_cost pool_hi_fee (2 ^ 60) ≠
      .ok (2 ^ 60 * pool_hi_fee.fee_rate / 10000,
           2 ^ 60 + 2 ^ 60 * pool_hi_fee.fee_rate / 10000) := by
  decide

/-- C5 amended: whenever the u64 arithmetic does not overflow,
`calculate_flash_loan_cost` returns fee = floor(amount * fee_rate / 10000)
and total = amount + fee, and a successful `request_flash_loan` records
exactly this fee on the receipt it appends. -/
theorem calculate_flash_loan_cost_formula
    (pool : FlashLoanPool) (amount : Nat) (ctx : TxContext)
    (_hr : pool.fee_rate ≤ 500)
    (hm : amount * pool.fee_rate < U64_LIMIT)
    (ht : amount + amount * pool.fee_rate / 10000 < U64_LIMIT) :
    calculate_flash_loan_cost pool amount
      = .ok (amount * pool.fee_rate / 10000,
             amount + amount * pool.fee_rate / 10000) ∧
    (∀ c cap p1, request_flash_loan pool amount ctx = .ok (c, cap, p1) →
      ∃ rc, p1.active_loans.getLast? = some rc ∧
        rc.fee_amount = amount * pool.fee_rate / 10000) := by
  constructor
  · unfold calculate_flash_loan_cost
    simp [checkedMul, checkedAdd, hm, ht, Bind.bind, Except.bind,
      Pure.pure, Except.pure]
  · intro c cap p1 h
    have hlast : p1.active_loans.getLast? = some
        { loan_id := pool.total_loans_issued, borrower := ctx.sender,
          amount_borrowed := amount, fee_amount := amount * pool.fee_rate / 10000,
          timestamp := ctx.epoch, is_repaid := false } := by
      obtain ⟨-, -, -, -, -, -, rfl⟩ := request_ok_elim _ _ _ _ _ _ h
      simp
    exact ⟨_, hlast, rfl⟩

/-- C5 witness: the amended claim evaluated at fee rate 50 and amount 1000. -/
theorem calculate_flash_loan_cost_formula_witness :
    calculate_flash_loan_cost poolW 1000
      = .ok (1000 * poolW.fee_rate / 10000,
             1000 + 1000 * poolW.fee_rate / 10000) :=
  (calculate_flash_loan_cost_formula poolW 1000 ctx0 (by decide) (by decide)
    (by decide)).1

/-- C6: for an unpaused pool, a valid amount, a fresh loan id and u64
arithmetic that does not overflow, `request_flash_loan` followed by
`repay_flash_loan` of exactly amount + fee succeeds and leaves the pool
balance equal to the balance before the request plus the fee. -/
theorem round_trip_balance_nets_fee
    (pool : FlashLoanPool) (amount : Nat) (ctx : TxContext)
    (hp : pool.is_paused = false) (h0 : 0 < amount)
    (hmax : amount ≤ pool.max_loan_amount) (hbal : amount ≤ pool.balance)
    (hfresh : ∀ rc ∈ pool.active_loans, rc.loan_id ≠ pool.total_loans_issued)
    (hm : amount * pool.fee_rate < U64_LIMIT)
    (ht : amount + amount * pool.fee_rate / 10000 < U64_LIMIT)
    (hc : pool.total_loans_issued + 1 < U64_LIMIT)
    (hb2 : pool.balance + amount * pool.fee_rate / 10000 < U64_LIMIT)
    (hf2 : pool.total_fees_collected + amount * pool.fee_rate / 10000 < U64_LIMIT) :
    ∃ cap p1 p2,
      request_flash_loan pool amount ctx = .ok (amount, cap, p1) ∧
      repay_flash_loan p1 cap (amount + amount * pool.fee_rate / 10000) ctx
        = .ok p2 ∧
      p2.balance = pool.balance + amount * pool.fee_rate / 10000 := by
  have hreq := request_ok pool amount ctx hp h0 hmax hbal hm ht hc
  set receipt : LoanReceipt :=
    { loan_id := pool.total_loans_issued,
      borrower := ctx.sender,
      amount_borrowed := amount,
      fee_amount := amount * pool.fee_rate / 10000,
      timestamp := ctx.epoch,
      is_repaid := false } with hreceipt
  set p1 : FlashLoanPool :=
    { pool with
      balance := pool.balance - amount,
      total_loans_issued := pool.total_loans_issued + 1,
      active_loans := pool.active_loans ++ [receipt] } with hp1
  have hfr : find_and_remove_loan_receipt p1.active_loans pool.total_loans_issued
      = .ok (receipt, pool.active_loans) := by
    have := find_and_remove_append_fresh pool.active_loans receipt
      (fun rc hrc => hfresh rc hrc)
    simpa [hp1, hreceipt] using this
  have hrepay := repay_ok p1
    { pool_id := ctx.sender, loan_id := pool.total_loans_issued }
    (amount + amount * pool.fee_rate / 10000) ctx receipt pool.active_loans
    hfr rfl (by simpa [hreceipt] using ht) (by simp [hreceipt])
    (by simp only [hp1, hreceipt]; omega)
    (by simpa [hp1, hreceipt] using hf2)
  refine ⟨_, _, _, hreq, hrepay, ?_⟩
  simp only [hp1]
  omega

/-- C6 witness: the round trip evaluated on the end-to-end scenario numbers of
the spec. -/
theorem round_trip_balance_nets_fee_witness :
    ∃ cap p1 p2,
      request_flash_loan pool0 100000000 ctx0 = .ok (100000000, cap, p1) ∧
      repay_flash_loan p1 cap
        (100000000 + 100000000 * pool0.fee_rate / 10000) ctx0 = .ok p2 ∧
      p2.balance = pool0.balance + 100000000 * pool0.fee_rate / 10000 :=
  round_trip_balance_nets_fee pool0 100000000 ctx0 (by decide) (by decide)
    (by decide) (by decide) (by simp [pool0]) (by decide) (by decide)
    (by decide) (by decide) (by decide)

/-- C7 counterexample: on an unpaused pool with balance 10 and max_loan_amount
5, requesting 20 (which exceeds the balance) aborts with E_INVALID_AMOUNT,
not E_INSUFFICIENT_BALANCE: the max-loan check precedes the balance check. -/
theorem oversized_request_error_is_invalid_amount :
    request_flash_loan pool_ca 20 ctx0 = .error (.code E_INVALID_AMOUNT) ∧
    request_flash_loan pool_ca 20 ctx0 ≠ .error (.code E_INSUFFICIENT_BALANCE) := by
  decide

/-- C7 amended: `request_flash_loan` fails with E_POOL_PAUSED whenever the
pool is paused, regardless of amount; when unpaused it fails with
E_INVALID_AMOUNT when the amount is 0 or above max_loan_amount, and with
E_INSUFFICIENT_BALANCE whenever the amount is otherwise valid but exceeds
the pool balance. -/
theorem request_flash_loan_error_classification
    (pool : FlashLoanPool) (amount : Nat) (ctx : TxContext) :
    (pool.is_paused = true →
      request_flash_loan pool amount ctx = .error (.code E_POOL_PAUSED)) ∧
    (pool.is_paused = false → (amount = 0 ∨ pool.max_loan_amount < amount) →
      request_flash_loan pool amount ctx = .error (.code E_INVALID_AMOUNT)) ∧
    (pool.is_paused = false → 0 < amount → amount ≤ pool.max_loan_amount →
      pool.balance < amount →
      request_flash_loan pool amount ctx = .error (.code E_INSUFFICIENT_BALANCE)) := by
  refine ⟨?_, ?_, ?_⟩
  · intro hp
    unfold request_flash_loan
    simp [massert, hp, Bind.bind, Except.bind]
  · intro hp hbad
    rcases hbad with h0 | hmax
    · unfold request_flash_loan
      simp [massert, hp, h0, Bind.bind, Except.bind]
    · have h0 : 0 < amount := Nat.lt_of_le_of_lt (Nat.zero_le _) hmax
      unfold request_flash_loan
      simp [massert, hp, h0, Nat.not_le.mpr hmax, Bind.bind, Except.bind]
  · intro hp h0 hmax hbal
    unfold request_flash_loan
    simp [massert, hp, h0, hmax, Nat.not_le.mpr hbal, Bind.bind, Except.bind]

/-- C7 witness: the three error classes evaluated on concrete pools. -/
theorem request_flash_loan_error_classification_witness :
    request_flash_loan pool_paused 20 ctx0 = .error (.code E_POOL_PAUSED) ∧
    request_flash_loan pool_ca 20 ctx0 = .error (.code E_INVALID_AMOUNT) ∧
    request_flash_loan pool_low 7 ctx0 = .error (.code E_INSUFFICIENT_BALANCE) :=
  ⟨(request_flash_loan_error_classification pool_paused 20 ctx0).1 rfl,
   (request_flash_loan_error_classification pool_ca 20 ctx0).2.1 rfl
     (Or.inr (by decide)),
   (request_flash_loan_error_classification pool_low 7 ctx0).2.2 rfl
     (by decide) (by decide) (by decide)⟩

/-- C9: a successful `repay_flash_loan` credits the entire repayment coin
value to the pool balance, so any overpayment above principal + fee is
absorbed by the pool and never returned to the borrower. -/
theorem repay_flash_loan_absorbs_overpayment
    (pool : FlashLoanPool) (capability : FlashLoanCapability)
    (repayment : Nat) (ctx : TxContext) (p2 : FlashLoanPool)
    (h : repay_flash_loan pool capability repayment ctx = .ok p2) :
    p2.balance = pool.balance + repayment := by
  obtain ⟨receipt, remaining, hfr, hrep, hge, rfl⟩ :=
    repay_ok_elim _ _ _ _ _ h
  rfl

/-- C9 witness: a repayment of 200 against a required 105 leaves the pool
balance higher by the full 200. -/
theorem repay_flash_loan_absorbs_overpayment_witness :
    poolW2.balance = poolW.balance + 200 :=
  repay_flash_loan_absorbs_overpayment poolW capW 200 ctx0 poolW2 (by decide)

end FlashLoan

namespace Backend

/-! ### Theorems about the backend services -/

theorem go_const_domain {α : Type} (op : Nat → Except JsError α)
    (cfg : RetryConfig) (e : JsError)
    (hop : ∀ n, op n = .error e)
    (hnet : isNetworkError e = false)
    (hcode : e.code ≠ "VALIDATION_ERROR") :
    ∀ fuel attempt sleeps rotations lastErr,
      attempt + fuel = cfg.maxAttempts + 1 → 1 ≤ fuel →
      executeWithFailoverGo op cfg fuel attempt sleeps rotations lastErr
        = ⟨.error e, cfg.maxAttempts, sleeps + (fuel - 1), rotations⟩ := by
  intro fuel
  induction fuel with
  | zero => intro attempt sleeps rotations lastErr hsum h1; omega
  | succ f ih =>
    intro attempt sleeps rotations lastErr hsum h1
    rcases Nat.eq_zero_or_pos f with hf | hf
    · subst hf
      have hatt : attempt = cfg.maxAttempts := by omega
      simp [executeWithFailoverGo, hop, hnet, hcode, hatt, le_refl]
    · have hlt : ¬ cfg.maxAttempts ≤ attempt := by omega
      have := ih (attempt + 1) (sleeps + 1) rotations (some e)
        (by omega) (by omega)
      simp [executeWithFailoverGo, hop, hnet, hcode, hlt, this]
      omega

/-- C3 counterexample: a non-network domain error (code DOMAIN_ERROR) is
retried: with maxAttempts = 3 the executor performs 3 attempts and 2
backoff sleeps before the error propagates, instead of propagating
immediately after the first attempt. -/
theorem domain_error_is_retried_with_backoff :
    domainRun.result = .error domainError ∧
    domainRun.attempts = 3 ∧ domainRun.sleeps = 2 ∧
    ¬ (domainRun.attempts = 1 ∧ domainRun.sleeps = 0) := by
  refine ⟨rfl, rfl, rfl, ?_⟩
  intro hcontra
  have h3 : domainRun.attempts = 3 := rfl
  omega

/-- C3 amended: only an error whose code is VALIDATION_ERROR propagates
immediately after the attempt that raised it, with no further attempts and
no backoff sleep; any other non-network error is retried with backoff
sleeps until maxAttempts is exhausted, after which the last error
propagates. -/
theorem failover_error_propagation {α : Type} (op : Nat → Except JsError α)
    (cfg : RetryConfig) (e : JsError) (hmax : 1 ≤ cfg.maxAttempts) :
    (op 1 = .error e → isNetworkError e = false → e.code = "VALIDATION_ERROR" →
      executeWithFailover op cfg = ⟨.error e, 1, 0, 0⟩) ∧
    ((∀ n, op n = .error e) → isNetworkError e = false →
      e.code ≠ "VALIDATION_ERROR" →
      executeWithFailover op cfg
        = ⟨.error e, cfg.maxAttempts, cfg.maxAttempts - 1, 0⟩) := by
  constructor
  · intro hop1 hnet hcode
    obtain ⟨f, hf⟩ : ∃ f, cfg.maxAttempts = f + 1 :=
      ⟨cfg.maxAttempts - 1, by omega⟩
    simp [executeWithFailover, hf, executeWithFailoverGo, hop1, hnet, hcode]
  · intro hop hnet hcode
    have h := go_const_domain op cfg e hop hnet hcode cfg.maxAttempts 1 0 0 none
      (by omega) hmax
    simpa [executeWithFailover] using h

/-- C3 witness: the amended claim evaluated at the default configuration for a
validation error and for a domain error. -/
theorem failover_error_propagation_witness :
    executeWithFailover (fun _ => (.error validationError : Except JsError Unit))
      retryCfg3 = ⟨.error validationError, 1, 0, 0⟩ ∧
    executeWithFailover (fun _ => (.error domainError : Except JsError Unit))
      retryCfg3 = ⟨.error domainError, retryCfg3.maxAttempts,
        retryCfg3.maxAttempts - 1, 0⟩ :=
  ⟨(failover_error_propagation (fun _ => .error validationError) retryCfg3
      validationError (by decide)).1 rfl rfl rfl,
   (failover_error_propagation (fun _ => .error domainError) retryCfg3
      domainError (by decide)).2 (fun _ => rfl) rfl (by decide)⟩

/-- C4 counterexample: a request that the identity-scoped (wallet) throttle
would reject still reaches the gas-estimation handler of the estimate
route, because that route mounts only the origin-scoped app-level limiter;
the execute route does block the same request. -/
theorem estimate_reached_despite_wallet_throttle :
    reachesCostEstimator envRejectWallet = true ∧
    envRejectWallet Limiter.walletScope = false ∧
    reachesExecution envRejectWallet = false := by
  decide

/-- C4 amended: the execute route is guarded by all three throttles (origin-,
operation-class- and identity-scoped), while the estimate route reaches
the Cost Estimator exactly when the origin-scoped throttle alone admits
the request. -/
theorem guard_chain_coverage (env : Limiter → Bool) :
    (reachesExecution env = true →
      env Limiter.globalScope = true ∧ env Limiter.flashLoanScope = true ∧
      env Limiter.walletScope = true) ∧
    (reachesCostEstimator env = true ↔ env Limiter.globalScope = true) := by
  constructor
  · intro h
    simp [reachesExecution, executeGuardChain, chainAdmits, rateLimitMiddleware,
      flashLoanRateLimitMiddleware, List.all] at h
    exact ⟨h.1, h.2.1, h.2.2⟩
  · simp [reachesCostEstimator, estimateGuardChain, chainAdmits,
      rateLimitMiddleware, List.all]

/-- C4 witness: the amended claim evaluated at a concrete request environment. -/
theorem guard_chain_coverage_witness :
    envRejectWallet Limiter.globalScope = true :=
  (guard_chain_coverage envRejectWallet).2.mp (by decide)

/-- C8: when the simulation reports failure the estimator returns zero cost,
viable = false and the would-fail reason; otherwise the returned cost is
the least integer at or above 1.2 times (computation + storage - rebate) —
characterized by 6 * raw <= 5 * cost < 6 * raw + 5 — and viable is false
exactly when that cost exceeds the configured ceiling. -/
theorem estimateGasCost_margin_and_viability (dry : DryRunResult)
    (budget : Int) :
    (dry.statusSuccess = false →
      estimateGasCost dry budget =
        { gasEstimate := 0, isValid := false,
          breakdown := { computationCost := 0, storageCost := 0, storageRebate := 0 },
          errMsg := some ("Transaction would fail during execution") }) ∧
    (dry.statusSuccess = true →
      (6 * (dry.gasUsed.computationCost + dry.gasUsed.storageCost
          - dry.gasUsed.storageRebate)
        ≤ 5 * (estimateGasCost dry budget).gasEstimate ∧
       5 * ((estimateGasCost dry budget).gasEstimate - 1)
        < 6 * (dry.gasUsed.computationCost + dry.gasUsed.storageCost
          - dry.gasUsed.storageRebate)) ∧
      ((estimateGasCost dry budget).isValid = false ↔
        budget < (estimateGasCost dry budget).gasEstimate)) := by
  constructor
  · intro hfail
    simp [estimateGasCost, hfail]
  · intro hsucc
    have hraw :
        (estimateGasCost dry budget).gasEstimate =
          ⌈((dry.gasUsed.computationCost + dry.gasUsed.storageCost
            - dry.gasUsed.storageRebate : Int) : ℚ) * 1.2⌉ := by
      simp [estimateGasCost, hsucc]
    set raw : Int := dry.gasUsed.computationCost + dry.gasUsed.storageCost
      - dry.gasUsed.storageRebate with hraw_def
    refine ⟨⟨?_, ?_⟩, ?_⟩
    · have h1 : ((raw : ℚ) * 1.2) ≤ (⌈(raw : ℚ) * 1.2⌉ : ℚ) := Int.le_ceil _
      rw [hraw]
      have : (6 * raw : ℚ) ≤ 5 * (⌈(raw : ℚ) * 1.2⌉ : ℚ) := by
        have h12 : (1.2 : ℚ) = 6 / 5 := by norm_num
        rw [h12] at h1
        linarith
      exact_mod_cast this
    · have h2 : ((⌈(raw : ℚ) * 1.2⌉ : ℚ)) < (raw : ℚ) * 1.2 + 1 :=
        Int.ceil_lt_add_one _
      rw [hraw]
      have : 5 * ((⌈(raw : ℚ) * 1.2⌉ : ℚ) - 1) < (6 * raw : ℚ) := by
        have h12 : (1.2 : ℚ) = 6 / 5 := by norm_num
        rw [h12] at h2
        linarith
      exact_mod_cast this
    · simp [estimateGasCost, hsucc, Int.not_le]

/-- C8 witness: the claim evaluated at a successful dry run with raw cost 120
and ceiling 1000. -/
theorem estimateGasCost_margin_and_viability_witness :
    ((6 * (dryOk.gasUsed.computationCost + dryOk.gasUsed.storageCost
        - dryOk.gasUsed.storageRebate)
      ≤ 5 * (estimateGasCost dryOk 1000).gasEstimate ∧
      5 * ((estimateGasCost dryOk 1000).gasEstimate - 1)
      < 6 * (dryOk.gasUsed.computationCost + dryOk.gasUsed.storageCost
        - dryOk.gasUsed.storageRebate)) ∧
     ((estimateGasCost dryOk 1000).isValid = false ↔
       1000 < (estimateGasCost dryOk 1000).gasEstimate)) :=
  (estimateGasCost_margin_and_viability dryOk 1000).2 rfl

/-- C10: `walletRateLimiter` is fail-open: a request carrying neither
borrowerAddress nor walletAddress is admitted without any counter
increment, and a request during which the counter-store increment throws
is admitted rather than rejected. -/
theorem walletRateLimiter_fail_open
    (borrowerAddress walletAddress : Option String) (incr : Except Unit Nat) :
    (borrowerAddress = none → walletAddress = none →
      walletRateLimiter borrowerAddress walletAddress incr
        = { admitted := true, counted := false }) ∧
    (incr = .error () →
      walletRateLimiter borrowerAddress walletAddress incr
        = { admitted := true, counted := false }) := by
  constructor
  · intro hb hw
    simp [walletRateLimiter, hb, hw, jsOr, jsTruthy]
  · intro herr
    by_cases ht : jsTruthy (jsOr borrowerAddress walletAddress) = false
    · simp [walletRateLimiter, ht]
    · simp [walletRateLimiter, ht, herr]

/-- C10 witness: the fail-open behavior evaluated on a request without
addresses and on a store failure. -/
theorem walletRateLimiter_fail_open_witness :
    walletRateLimiter none none (.ok 0) = { admitted := true, counted := false } ∧
    walletRateLimiter (some ("0xabc")) none (.error ())
      = { admitted := true, counted := false } :=
  ⟨(walletRateLimiter_fail_open none none (.ok 0)).1 rfl rfl,
   (walletRateLimiter_fail_open (some ("0xabc")) none (.error ())).2 rfl⟩

end Backend
